import Mathlib

/-!
Verification of the STM32 firmware-upload sequence
(`src/sequences/stm32_firmware_upload/sequence.py`).

The sequence body `STM32FirmwareUpload.run` and its helpers are embedded
shallowly.  The external programmer process is modelled by an oracle
(`ProcOutcome` per invocation, collected in `Env`); wall-clock durations
carried by step events and the upload-time measurement are not modelled
(no claim mentions them).  The host-SDK primitives (`emit_*`,
`check_abort`) are not in the repository; following the spec, `emit_*`
calls are recorded as an outward event trace and cooperative cancellation
is a flag polled at step boundaries (the flag is constant over one run, so
a single poll at the start is equivalent).  Event payloads that no claim
inspects (log/error message texts, durations) are elided.
-/

/-- Resolved parameters of one run, loaded in `setup` (sequence.py lines
39-54) and never mutated afterwards.  `programmer_path` is elided: it only
prefixes the argument vector of every invocation.  `frequency` is the kHz
integer parameter. -/
structure Config where
  firmware_path : String
  erase_before_upload : Bool
  verify_after_upload : Bool
  reset_after_upload : Bool
  connection_mode : String
  start_address : String
  stop_on_failure : Bool
  connect_mode : String
  reset_mode : String
  frequency : Nat
deriving Repr, DecidableEq

/-- Outcome of one external-process invocation, as observed by
`_run_programmer_cmd` (lines 311-337): the process exits with a return
code and captured stdout/stderr, the bounded wait expires, or the launch
itself fails. -/
inductive ProcOutcome where
  | exited (returncode : Int) (stdout stderr : String)
  | timeout
  | launchFailure (msg : String)
deriving Repr, DecidableEq

/-- The environment of one run: the cancellation flag and the oracle
outcome of each potential tool invocation (each step invokes the tool at
most once). -/
structure Env where
  aborted : Bool
  checkOutcome : ProcOutcome
  eraseOutcome : ProcOutcome
  uploadOutcome : ProcOutcome
  resetOutcome : ProcOutcome
deriving Repr, DecidableEq

/-- Error taxonomy of the sequence (spec section 7): `SetupError` and
`HardwareError` from `station_service_sdk`. -/
inductive SeqError where
  | hardware (msg : String)
  | setup (msg : String)
deriving Repr, DecidableEq

/-- The only way `run` itself can fail to return a result: cooperative
cancellation via `check_abort`. -/
inductive RunError where
  | aborted
deriving Repr, DecidableEq

/-- The `RunResult` dict returned by `run` (lines 180-187): `passed`,
the `measurements` mapping, and the optional `data["stopped_at"]` entry
(`none` models the absent `data` key). -/
structure RunOutput where
  passed : Bool
  measurements : List (String × String)
  stopped_at : Option String
deriving Repr, DecidableEq

/-- Outward events emitted to the host runtime, plus the tool invocations
issued to the external process.  Payloads no claim inspects (messages,
durations) are elided. -/
inductive Event where
  | stepStart (id : String) (ordinal total : Nat)
  | stepComplete (id : String) (ordinal : Nat) (success : Bool)
  | errorEvt (code : String)
  | logEvt (level : String)
  | toolInvocation (args : List String)
deriving Repr, DecidableEq

/-! ### String primitives

Python string operations used by the source, defined by structural
recursion over the character list so that every claim can be evaluated on
concrete inputs. -/

/-- `listStartsWith needle hay`: `needle` is a prefix of `hay`. -/
def listStartsWith : List Char → List Char → Bool
  | [], _ => true
  | _ :: _, [] => false
  | a :: as, b :: bs => a == b && listStartsWith as bs

/-- `containsList needle hay`: `needle` occurs contiguously in `hay`. -/
def containsList (needle : List Char) : List Char → Bool
  | [] => needle.isEmpty
  | h :: t => listStartsWith needle (h :: t) || containsList needle t

/-- Python's substring test `pat in s`. -/
def strContains (s pat : String) : Bool :=
  containsList pat.data s.data

/-- Python's `str.split(sep)` for a single-character separator: split on
every occurrence, keeping empty pieces. -/
def splitOnChar (c : Char) : List Char → List (List Char)
  | [] => [[]]
  | x :: xs =>
    let rest := splitOnChar c xs
    if x == c then [] :: rest
    else
      match rest with
      | r :: rs => (x :: r) :: rs
      | [] => [[x]]

/-- Python's `str.strip()` (ASCII whitespace). -/
def trimChars (l : List Char) : List Char :=
  ((l.dropWhile Char.isWhitespace).reverse.dropWhile Char.isWhitespace).reverse

/-- Python's `str.upper()` (ASCII, as produced for the tool's tokens). -/
def strUpper (s : String) : String :=
  String.mk (s.data.map Char.toUpper)

/-! ### Connect-string construction (`_build_connect_args`, lines 292-309) -/

/-- `_build_connect_args`: the `-c` connect string.  Python truthiness of
`self.connect_mode` / `self.reset_mode` (strings) and `self.frequency`
(integer) is nonemptiness / nonzeroness. -/
def build_connect_args (cfg : Config) : String :=
  let connect_str := "port=" ++ strUpper cfg.connection_mode
  let connect_str :=
    if cfg.connect_mode ≠ "" ∧ strUpper cfg.connect_mode ≠ "NORMAL" then
      connect_str ++ " mode=" ++ strUpper cfg.connect_mode
    else connect_str
  let connect_str :=
    if cfg.reset_mode ≠ "" then connect_str ++ " reset=" ++ cfg.reset_mode
    else connect_str
  if cfg.frequency ≠ 0 then connect_str ++ " freq=" ++ toString cfg.frequency
  else connect_str

/-! ### Tool runner (`_run_programmer_cmd`, lines 311-337) -/

/-- `_run_programmer_cmd`: runs the CLI (outcome given by the oracle),
returning the emitted events together with either `(success, stdout ++
stderr)` where `success` is `returncode == 0`, or the raised
`HardwareError` on timeout / launch failure.  The debug log of the command
line (line 314) and the error log on non-zero exit (line 331) appear in
the event trace. -/
def run_programmer_cmd (args : List String) (outcome : ProcOutcome) :
    List Event × Except SeqError (Bool × String) :=
  let pre := [Event.logEvt "debug", Event.toolInvocation args]
  match outcome with
  | .exited rc stdout stderr =>
    let output := stdout ++ stderr
    let success := rc == 0
    if success then (pre, .ok (success, output))
    else (pre ++ [Event.logEvt "error"], .ok (success, output))
  | .timeout => (pre, .error (.hardware "Programmer command timed out"))
  | .launchFailure msg =>
      (pre, .error (.hardware ("Failed to run programmer: " ++ msg)))

/-- Argument vector of the connection probe (line 341). -/
def probe_args (cfg : Config) : List String :=
  ["-c", build_connect_args cfg, "-l"]

/-- Argument vector of the mass erase (lines 365-368). -/
def erase_args (cfg : Config) : List String :=
  ["-c", build_connect_args cfg, "-e", "all"]

/-- Argument vector of the write command, with `-v` appended directly
after the write arguments when verification is requested (lines 382-390). -/
def upload_args (cfg : Config) (verify : Bool) : List String :=
  ["-c", build_connect_args cfg, "-w", cfg.firmware_path, cfg.start_address]
    ++ (if verify then ["-v"] else [])

/-- Argument vector of the target reset (lines 407-410). -/
def reset_args (cfg : Config) : List String :=
  ["-c", build_connect_args cfg, "-rst"]

/-! ### Connection-probe output parsing (`_check_stlink_connection`,
lines 339-361) -/

/-- One iteration of the line loop (lines 349-357) for one field: if the
line contains `key`, split it on `:`; when there are at least two pieces
take the piece after the first colon, trimmed; otherwise keep the
accumulator. -/
def updField (key : String) (acc : List Char) (line : List Char) : List Char :=
  if containsList key.data line then
    match splitOnChar ':' line with
    | _ :: p :: _ => trimChars p
    | _ => acc
  else acc

/-- The loop body of lines 349-357: each line updates the serial and
device-name accumulators independently. -/
def scan_info_line (acc : List Char × List Char) (line : List Char) :
    List Char × List Char :=
  (updField "ST-LINK SN" acc.1 line, updField "Device name" acc.2 line)

/-- The pure output interpretation of `_check_stlink_connection` (lines
343-361): presence iff the output contains "Device ID" or "Device name";
on presence the serial / device-name fields are extracted by the line
loop, defaulting to "unknown"; otherwise `(False, \x7b\x7d)`. -/
def parse_stlink_output (output : String) : Bool × List (String × String) :=
  if strContains output "Device ID" || strContains output "Device name" then
    let lines := splitOnChar '\n' output.data
    let info := lines.foldl scan_info_line ("unknown".data, "unknown".data)
    (true, [("serial", String.mk info.1), ("device_name", String.mk info.2)])
  else (false, [])

/-- `_check_stlink_connection`: probe invocation followed by output
parsing.  The runner's success flag is discarded (line 341). -/
def check_stlink_connection (cfg : Config) (outcome : ProcOutcome) :
    List Event × Except SeqError (Bool × List (String × String)) :=
  match run_programmer_cmd (probe_args cfg) outcome with
  | (evs, .error e) => (evs, .error e)
  | (evs, .ok (_, output)) => (evs, .ok (parse_stlink_output output))

/-! ### Erase, upload, reset (lines 363-411) -/

/-- `_erase_flash`: mass erase, success of the invocation. -/
def erase_flash (cfg : Config) (outcome : ProcOutcome) :
    List Event × Except SeqError Bool :=
  match run_programmer_cmd (erase_args cfg) outcome with
  | (evs, .error e) => (evs, .error e)
  | (evs, .ok (success, _)) => (evs, .ok success)

/-- The verification-outcome computation of `_upload_firmware` (lines
395-403): requested-and-written means "File download complete" or
"Download verified successfully" in the output; requested after a failed
write means "Download verified successfully" only; not requested means
`True`. -/
def verify_outcome (verify success : Bool) (output : String) : Bool :=
  let verify_success :=
    if verify && success then
      strContains output "File download complete"
        || strContains output "Download verified successfully"
    else if verify then strContains output "Download verified successfully"
    else false
  if verify then verify_success else true

/-- `_upload_firmware`: write (with optional `-v`), returning
`(upload_success, verify_flag)`.  The wall-clock `upload_time` component
is not modelled. -/
def upload_firmware (cfg : Config) (verify : Bool) (outcome : ProcOutcome) :
    List Event × Except SeqError (Bool × Bool) :=
  match run_programmer_cmd (upload_args cfg verify) outcome with
  | (evs, .error e) => (evs, .error e)
  | (evs, .ok (success, output)) =>
      (evs, .ok (success, verify_outcome verify success output))

/-- `_reset_target`: reset invocation, success of the invocation. -/
def reset_target (cfg : Config) (outcome : ProcOutcome) :
    List Event × Except SeqError Bool :=
  match run_programmer_cmd (reset_args cfg) outcome with
  | (evs, .error e) => (evs, .error e)
  | (evs, .ok (success, _)) => (evs, .ok success)

/-! ### The sequence body (`run`, lines 75-187) -/

/-- Step-count computation of lines 77-82: connection check + upload,
plus one for erase and one for verify when enabled. -/
def total_steps (cfg : Config) : Nat :=
  2 + (if cfg.erase_before_upload then 1 else 0)
    + (if cfg.verify_after_upload then 1 else 0)

/-- Whether the connection-check try-block (lines 95-101) completes
without an exception: the probe call must not raise and the parsed
presence must be true (line 97 raises `HardwareError` otherwise). -/
def checkOk (cfg : Config) (env : Env) : Bool :=
  match (check_stlink_connection cfg env.checkOutcome).2 with
  | .ok (connected, _) => connected
  | .error _ => false

/-- Events emitted inside `_check_stlink_connection` for the probe call. -/
def checkEvs (cfg : Config) (env : Env) : List Event :=
  (check_stlink_connection cfg env.checkOutcome).1

/-- Whether the erase try-block (lines 117-122) completes without an
exception: the erase call must not raise and must report success
(line 119 raises otherwise). -/
def eraseOk (cfg : Config) (env : Env) : Bool :=
  match (erase_flash cfg env.eraseOutcome).2 with
  | .ok success => success
  | .error _ => false

/-- Events emitted inside `_erase_flash`. -/
def eraseEvs (cfg : Config) (env : Env) : List Event :=
  (erase_flash cfg env.eraseOutcome).1

/-- Whether the upload try-block (lines 139-147) completes without an
exception: the write call must not raise and must report success
(line 144 raises otherwise). -/
def uploadOk (cfg : Config) (env : Env) : Bool :=
  match (upload_firmware cfg cfg.verify_after_upload env.uploadOutcome).2 with
  | .ok (success, _) => success
  | .error _ => false

/-- The `verify_result` value assigned by the tuple assignment of line
141 when the call itself returns; when `_upload_firmware` raises, the
assignment never happens and `verify_result` keeps its line-132 initial
value `False`. -/
def uploadVerify (cfg : Config) (env : Env) : Bool :=
  match (upload_firmware cfg cfg.verify_after_upload env.uploadOutcome).2 with
  | .ok (_, verify_result) => verify_result
  | .error _ => false

/-- Events emitted inside `_upload_firmware`. -/
def uploadEvs (cfg : Config) (env : Env) : List Event :=
  (upload_firmware cfg cfg.verify_after_upload env.uploadOutcome).1

/-- Events of the reset block (lines 174-178): on a completed call the
"Target reset completed" info log (the call's success flag is discarded,
line 175); on a raised error the warning log (line 178). -/
def resetStepEvs (cfg : Config) (env : Env) : List Event :=
  match reset_target cfg env.resetOutcome with
  | (evs, .ok _) => evs ++ [Event.logEvt "info"]
  | (evs, .error _) => evs ++ [Event.logEvt "warning"]

/-- Lines 156-187 of `run`: the verify-report step (no tool call, no
early return), the best-effort reset, and the final `RunResult`.  The
accumulated aggregate state (`passed3`, `stopped3`, `cur3`,
`verify_result`) and the events emitted so far (`evs3`) are explicit
arguments. -/
def stage_verify (cfg : Config) (env : Env) (passed3 : Bool)
    (stopped3 : Option String) (cur3 : Nat) (verify_result : Bool)
    (evs3 : List Event) : RunOutput × List Event :=
  let verifyRuns := cfg.verify_after_upload && (passed3 || !cfg.stop_on_failure)
  let cur4 := if verifyRuns then cur3 + 1 else cur3
  let evs4 := evs3 ++
    (if verifyRuns then
      Event.stepStart "verify_firmware" cur4 (total_steps cfg) ::
      (if verify_result then [Event.stepComplete "verify_firmware" cur4 true]
       else [Event.errorEvt "VERIFY_ERROR",
             Event.stepComplete "verify_firmware" cur4 false])
     else [])
  let passed4 := if verifyRuns && !verify_result then false else passed3
  let stopped4 := if verifyRuns && !verify_result then
      some (stopped3.getD "verify_firmware")
    else stopped3
  -- Reset (lines 171-178): best effort, only when everything passed
  let evs5 := evs4 ++
    (if cfg.reset_after_upload && passed4 then resetStepEvs cfg env else [])
  ({ passed := passed4, measurements := [], stopped_at := stopped4 }, evs5)

/-- Lines 131-154 of `run`: the upload step; `verify_result` was
initialised to `False` on line 132.  The early-return of line 152 is the
first branch. -/
def stage_upload (cfg : Config) (env : Env) (passed2 : Bool)
    (stopped2 : Option String) (cur2 : Nat) (evs2 : List Event) :
    RunOutput × List Event :=
  let uploadRuns := passed2 || !cfg.stop_on_failure
  let ok3 := uploadOk cfg env
  let verify_result := if uploadRuns then uploadVerify cfg env else false
  let cur3 := if uploadRuns then cur2 + 1 else cur2
  let evs3 := evs2 ++
    (if uploadRuns then
      Event.stepStart "upload_firmware" cur3 (total_steps cfg) ::
      uploadEvs cfg env ++
      (if ok3 then [Event.stepComplete "upload_firmware" cur3 true]
       else [Event.errorEvt "UPLOAD_ERROR",
             Event.stepComplete "upload_firmware" cur3 false])
     else [])
  if uploadRuns && !ok3 && cfg.stop_on_failure then
    ({ passed := false, measurements := [],
       stopped_at := some "upload_firmware" }, evs3)
  else
    stage_verify cfg env (if uploadRuns && !ok3 then false else passed2)
      (if uploadRuns && !ok3 then some (stopped2.getD "upload_firmware")
       else stopped2)
      cur3 verify_result evs3

/-- Lines 110-129 of `run`: the optional erase step.  The early-return of
line 127 is the first branch. -/
def stage_erase (cfg : Config) (env : Env) (passed1 : Bool)
    (stopped1 : Option String) (evs1 : List Event) : RunOutput × List Event :=
  let eraseRuns := cfg.erase_before_upload && (passed1 || !cfg.stop_on_failure)
  let ok2 := eraseOk cfg env
  let cur2 := if eraseRuns then 2 else 1
  let evs2 := evs1 ++
    (if eraseRuns then
      Event.stepStart "erase_chip" cur2 (total_steps cfg) ::
      eraseEvs cfg env ++
      (if ok2 then [Event.stepComplete "erase_chip" cur2 true]
       else [Event.errorEvt "ERASE_ERROR",
             Event.stepComplete "erase_chip" cur2 false])
     else [])
  if eraseRuns && !ok2 && cfg.stop_on_failure then
    ({ passed := false, measurements := [], stopped_at := some "erase_chip" },
     evs2)
  else
    stage_upload cfg env (if eraseRuns && !ok2 then false else passed1)
      (if eraseRuns && !ok2 then some (stopped1.getD "erase_chip") else stopped1)
      cur2 evs2

/-- The body of `run` (lines 75-187) for a non-cancelled run, producing
the `RunResult` and the emitted event trace.  Lines 89-108: the
connection-check step at `current_step = 1`, with the early return of
line 106. -/
def runCore (cfg : Config) (env : Env) : RunOutput × List Event :=
  let ok1 := checkOk cfg env
  let evs1 := Event.stepStart "check_connection" 1 (total_steps cfg) ::
    checkEvs cfg env ++
    (if ok1 then [Event.logEvt "info", Event.stepComplete "check_connection" 1 true]
     else [Event.errorEvt "CONNECTION_ERROR",
           Event.stepComplete "check_connection" 1 false])
  if !ok1 && cfg.stop_on_failure then
    ({ passed := false, measurements := [], stopped_at := some "check_connection" },
     evs1)
  else
    stage_erase cfg env ok1 (if ok1 then none else some "check_connection") evs1

/-- `run` (lines 75-187): cooperative cancellation aborts the run at a
step boundary; otherwise the sequence body runs to a `RunResult`. -/
def run (cfg : Config) (env : Env) : Except RunError (RunOutput × List Event) :=
  if env.aborted then .error .aborted else .ok (runCore cfg env)

/-! ### Event-trace projections -/

/-- Ids of the step-start events of a trace, in order: the steps the run
attempted. -/
def stepStartIds (evs : List Event) : List String :=
  evs.filterMap fun e =>
    match e with
    | .stepStart id _ _ => some id
    | _ => none

/-- Announced total step counts of the step-start events of a trace. -/
def stepStartTotals (evs : List Event) : List Nat :=
  evs.filterMap fun e =>
    match e with
    | .stepStart _ _ t => some t
    | _ => none

/-- Argument vectors of the tool invocations of a trace, in order. -/
def toolInvocations (evs : List Event) : List (List String) :=
  evs.filterMap fun e =>
    match e with
    | .toolInvocation args => some args
    | _ => none

/-! ### Claim-side descriptions

Definitions below follow the spec's wording (claims C2 and C4) and are
compared with the embedded code. -/

/-- The enabled counted steps of a run, in order (spec section 4.4):
connection check, optional erase, upload, optional verify report.  The
best-effort reset is not a counted step. -/
def enabled_steps (cfg : Config) : List String :=
  ["check_connection"]
    ++ (if cfg.erase_before_upload then ["erase_chip"] else [])
    ++ ["upload_firmware"]
    ++ (if cfg.verify_after_upload then ["verify_firmware"] else [])

/-- Whether a given enabled step fails when attempted: the probe finds no
device, the erase or write invocation raises or reports failure, or the
verification flag obtained during upload is false. -/
def step_fails (cfg : Config) (env : Env) (id : String) : Bool :=
  if id = "check_connection" then !checkOk cfg env
  else if id = "erase_chip" then !eraseOk cfg env
  else if id = "upload_firmware" then !uploadOk cfg env
  else if id = "verify_firmware" then !uploadVerify cfg env
  else false

/-- The identifier of the first failing step among the enabled steps, in
their execution order (the claimed value of `stopped_at`). -/
def first_failing_step (cfg : Config) (env : Env) : Option String :=
  if !checkOk cfg env then some "check_connection"
  else if cfg.erase_before_upload && !eraseOk cfg env then some "erase_chip"
  else if !uploadOk cfg env then some "upload_firmware"
  else if cfg.verify_after_upload && !uploadVerify cfg env then
    some "verify_firmware"
  else none

/-- Concrete production-style configuration: erase disabled, verify
enabled, reset enabled, stop-on-failure enabled. -/
def cfgA : Config :=
  { firmware_path := "firmware.bin", erase_before_upload := false,
    verify_after_upload := true, reset_after_upload := true,
    connection_mode := "swd", start_address := "0x08000000",
    stop_on_failure := true, connect_mode := "HOTPLUG",
    reset_mode := "HWrst", frequency := 4000 }

/-- Continue-mode configuration with every optional step enabled. -/
def cfgB : Config :=
  { cfgA with stop_on_failure := false, erase_before_upload := true }

/-- Environment in which every invocation exits with status zero, the
probe output shows the device, and every output contains "Download
verified successfully". -/
def envA : Env :=
  { aborted := false,
    checkOutcome := .exited 0
      "Device ID: 0x450\nST-LINK SN: 12345\nDownload verified successfully\n" "",
    eraseOutcome := .exited 0 "Download verified successfully\n" "",
    uploadOutcome := .exited 0 "Download verified successfully\n" "",
    resetOutcome := .exited 0 "Download verified successfully\n" "" }

/-- Environment whose probe output shows no device. -/
def envFail : Env :=
  { envA with checkOutcome := .exited 1 "no device" "" }

/-- C6: when verification was requested and the write command succeeded,
the verification outcome is true iff the output contains "File download
complete" or "Download verified successfully"; when verification was not
requested, the outcome is true regardless of the output and of the write
result. -/
theorem verify_outcome_spec (output : String) (success : Bool) :
    verify_outcome true true output =
      (strContains output "File download complete"
        || strContains output "Download verified successfully") ∧
    verify_outcome false success output = true := by
  exact ⟨rfl, rfl⟩

/-- C8: the external-tool runner reports success iff the process exits
with status zero, returns standard output followed by standard error
concatenated in that order, and raises a hardware-kind error (rather than
returning a failure result) on timeout of the bounded wait and on any
failure to launch the process. -/
theorem run_programmer_cmd_spec (args : List String) (outcome : ProcOutcome) :
    (∀ rc stdout stderr, outcome = .exited rc stdout stderr →
      (run_programmer_cmd args outcome).2 = .ok (rc == 0, stdout ++ stderr)
        ∧ ((rc == 0) = true ↔ rc = 0)) ∧
    (outcome = .timeout →
      (run_programmer_cmd args outcome).2 =
        .error (.hardware "Programmer command timed out")) ∧
    (∀ msg, outcome = .launchFailure msg →
      (run_programmer_cmd args outcome).2 =
        .error (.hardware ("Failed to run programmer: " ++ msg))) := by
  refine ⟨?_, ?_, ?_⟩
  · rintro rc stdout stderr rfl
    refine ⟨?_, beq_iff_eq ..⟩
    simp only [run_programmer_cmd]
    split <;> rfl
  · rintro rfl; rfl
  · rintro msg rfl; rfl

/-- Witness for C8 at a concrete invocation. -/
theorem run_programmer_cmd_spec_witness :
    (run_programmer_cmd ["-c", "port=SWD", "-l"]
        (.exited 0 "out" "err")).2 = .ok ((0 : Int) == 0, "out" ++ "err") :=
  ((run_programmer_cmd_spec ["-c", "port=SWD", "-l"]
    (.exited 0 "out" "err")).1 0 "out" "err" rfl).1

/-- Every return path of the verify/reset stage carries an empty
measurements mapping. -/
theorem stage_verify_measurements (cfg : Config) (env : Env) (p : Bool)
    (st : Option String) (c : Nat) (vr : Bool) (evs : List Event) :
    (stage_verify cfg env p st c vr evs).1.measurements = [] := rfl

/-- Every return path of the upload stage carries an empty measurements
mapping. -/
theorem stage_upload_measurements (cfg : Config) (env : Env) (p : Bool)
    (st : Option String) (c : Nat) (evs : List Event) :
    (stage_upload cfg env p st c evs).1.measurements = [] := by
  simp only [stage_upload]
  split
  · rfl
  · exact stage_verify_measurements ..

/-- Every return path of the erase stage carries an empty measurements
mapping. -/
theorem stage_erase_measurements (cfg : Config) (env : Env) (p : Bool)
    (st : Option String) (evs : List Event) :
    (stage_erase cfg env p st evs).1.measurements = [] := by
  simp only [stage_erase]
  split
  · rfl
  · exact stage_upload_measurements ..

/-- C10: whatever the configuration and the environment, a completed run
returns an empty measurements mapping: no step ever records a
measurement. -/
theorem run_measurements_empty (cfg : Config) (env : Env)
    (out : RunOutput) (evs : List Event)
    (h : run cfg env = .ok (out, evs)) : out.measurements = [] := by
  unfold run at h
  split at h
  · exact absurd h (by simp)
  · have h' := Except.ok.inj h
    have hout : out = (runCore cfg env).1 := by rw [h']
    subst hout
    simp only [runCore]
    split
    · rfl
    · exact stage_erase_measurements ..

/-- Concrete witness for C10. -/
theorem run_measurements_empty_witness :
    ((runCore cfgA envFail).1).measurements = [] :=
  run_measurements_empty cfgA envFail
    ((runCore cfgA envFail).1) ((runCore cfgA envFail).2) rfl

/-! ### Trace-projection lemmas -/

@[simp] theorem toolInvocations_nil : toolInvocations [] = [] := rfl

@[simp] theorem stepStartIds_nil : stepStartIds [] = [] := rfl

@[simp] theorem stepStartTotals_nil : stepStartTotals [] = [] := rfl

@[simp] theorem toolInvocations_append (a b : List Event) :
    toolInvocations (a ++ b) = toolInvocations a ++ toolInvocations b :=
  List.filterMap_append ..

@[simp] theorem stepStartIds_append (a b : List Event) :
    stepStartIds (a ++ b) = stepStartIds a ++ stepStartIds b :=
  List.filterMap_append ..

@[simp] theorem stepStartTotals_append (a b : List Event) :
    stepStartTotals (a ++ b) = stepStartTotals a ++ stepStartTotals b :=
  List.filterMap_append ..

@[simp] theorem toolInvocations_cons_tool (args : List String) (evs : List Event) :
    toolInvocations (Event.toolInvocation args :: evs) =
      args :: toolInvocations evs := rfl

@[simp] theorem toolInvocations_cons_stepStart (id : String) (o t : Nat)
    (evs : List Event) :
    toolInvocations (Event.stepStart id o t :: evs) = toolInvocations evs := rfl

@[simp] theorem toolInvocations_cons_stepComplete (id : String) (o : Nat)
    (b : Bool) (evs : List Event) :
    toolInvocations (Event.stepComplete id o b :: evs) = toolInvocations evs := rfl

@[simp] theorem toolInvocations_cons_errorEvt (c : String) (evs : List Event) :
    toolInvocations (Event.errorEvt c :: evs) = toolInvocations evs := rfl

@[simp] theorem toolInvocations_cons_logEvt (l : String) (evs : List Event) :
    toolInvocations (Event.logEvt l :: evs) = toolInvocations evs := rfl

@[simp] theorem stepStartIds_cons_stepStart (id : String) (o t : Nat)
    (evs : List Event) :
    stepStartIds (Event.stepStart id o t :: evs) = id :: stepStartIds evs := rfl

@[simp] theorem stepStartIds_cons_stepComplete (id : String) (o : Nat) (b : Bool)
    (evs : List Event) :
    stepStartIds (Event.stepComplete id o b :: evs) = stepStartIds evs := rfl

@[simp] theorem stepStartIds_cons_errorEvt (c : String) (evs : List Event) :
    stepStartIds (Event.errorEvt c :: evs) = stepStartIds evs := rfl

@[simp] theorem stepStartIds_cons_logEvt (l : String) (evs : List Event) :
    stepStartIds (Event.logEvt l :: evs) = stepStartIds evs := rfl

@[simp] theorem stepStartIds_cons_tool (args : List String) (evs : List Event) :
    stepStartIds (Event.toolInvocation args :: evs) = stepStartIds evs := rfl

@[simp] theorem stepStartTotals_cons_stepStart (id : String) (o t : Nat)
    (evs : List Event) :
    stepStartTotals (Event.stepStart id o t :: evs) =
      t :: stepStartTotals evs := rfl

@[simp] theorem stepStartTotals_cons_stepComplete (id : String) (o : Nat)
    (b : Bool) (evs : List Event) :
    stepStartTotals (Event.stepComplete id o b :: evs) = stepStartTotals evs := rfl

@[simp] theorem stepStartTotals_cons_errorEvt (c : String) (evs : List Event) :
    stepStartTotals (Event.errorEvt c :: evs) = stepStartTotals evs := rfl

@[simp] theorem stepStartTotals_cons_logEvt (l : String) (evs : List Event) :
    stepStartTotals (Event.logEvt l :: evs) = stepStartTotals evs := rfl

@[simp] theorem stepStartTotals_cons_tool (args : List String) (evs : List Event) :
    stepStartTotals (Event.toolInvocation args :: evs) = stepStartTotals evs := rfl

theorem toolInvocations_cmd (args : List String) (o : ProcOutcome) :
    toolInvocations (run_programmer_cmd args o).1 = [args] := by
  cases o <;> simp only [run_programmer_cmd] <;>
    first
    | (split <;> simp)
    | simp

theorem stepStartIds_cmd (args : List String) (o : ProcOutcome) :
    stepStartIds (run_programmer_cmd args o).1 = [] := by
  cases o <;> simp only [run_programmer_cmd] <;>
    first
    | (split <;> simp)
    | simp

theorem stepStartTotals_cmd (args : List String) (o : ProcOutcome) :
    stepStartTotals (run_programmer_cmd args o).1 = [] := by
  cases o <;> simp only [run_programmer_cmd] <;>
    first
    | (split <;> simp)
    | simp

theorem checkEvs_eq (cfg : Config) (env : Env) :
    checkEvs cfg env = (run_programmer_cmd (probe_args cfg) env.checkOutcome).1 := by
  unfold checkEvs check_stlink_connection
  rcases h : run_programmer_cmd (probe_args cfg) env.checkOutcome with ⟨evs, r⟩
  rcases r with e | ok
  · rfl
  · rcases ok with ⟨s, output⟩; rfl

theorem eraseEvs_eq (cfg : Config) (env : Env) :
    eraseEvs cfg env = (run_programmer_cmd (erase_args cfg) env.eraseOutcome).1 := by
  unfold eraseEvs erase_flash
  rcases h : run_programmer_cmd (erase_args cfg) env.eraseOutcome with ⟨evs, r⟩
  rcases r with e | ok
  · rfl
  · rcases ok with ⟨s, output⟩; rfl

theorem uploadEvs_eq (cfg : Config) (env : Env) :
    uploadEvs cfg env =
      (run_programmer_cmd (upload_args cfg cfg.verify_after_upload)
        env.uploadOutcome).1 := by
  unfold uploadEvs upload_firmware
  rcases h : run_programmer_cmd (upload_args cfg cfg.verify_after_upload)
    env.uploadOutcome with ⟨evs, r⟩
  rcases r with e | ok
  · rfl
  · rcases ok with ⟨s, output⟩; rfl

theorem toolInvocations_resetStepEvs (cfg : Config) (env : Env) :
    toolInvocations (resetStepEvs cfg env) = [reset_args cfg] := by
  unfold resetStepEvs reset_target
  rcases h : run_programmer_cmd (reset_args cfg) env.resetOutcome with ⟨evs, r⟩
  have hevs : toolInvocations evs = [reset_args cfg] := by
    have := toolInvocations_cmd (reset_args cfg) env.resetOutcome
    rw [h] at this; exact this
  rcases r with e | ok
  · simp [hevs]
  · rcases ok with s
    simp [hevs]

theorem stepStartIds_resetStepEvs (cfg : Config) (env : Env) :
    stepStartIds (resetStepEvs cfg env) = [] := by
  unfold resetStepEvs reset_target
  rcases h : run_programmer_cmd (reset_args cfg) env.resetOutcome with ⟨evs, r⟩
  have hevs : stepStartIds evs = [] := by
    have := stepStartIds_cmd (reset_args cfg) env.resetOutcome
    rw [h] at this; exact this
  rcases r with e | ok
  · simp [hevs]
  · rcases ok with s
    simp [hevs]

theorem stepStartTotals_resetStepEvs (cfg : Config) (env : Env) :
    stepStartTotals (resetStepEvs cfg env) = [] := by
  unfold resetStepEvs reset_target
  rcases h : run_programmer_cmd (reset_args cfg) env.resetOutcome with ⟨evs, r⟩
  have hevs : stepStartTotals evs = [] := by
    have := stepStartTotals_cmd (reset_args cfg) env.resetOutcome
    rw [h] at this; exact this
  rcases r with e | ok
  · simp [hevs]
  · rcases ok with s
    simp [hevs]

/-- C7: the connect string is a pure function of the configuration.  It
always starts with `port=` followed by the upper-cased transport token;
a `mode=` segment is appended only when the connect mode is not "NORMAL",
carrying the upper-cased connect-mode token; a `reset=` segment with the
reset-mode token exactly as configured is appended whenever a reset mode
is configured (nonempty); and a `freq=` segment is appended whenever a
nonzero frequency is configured. -/
theorem build_connect_args_spec (cfg : Config) :
    ∃ m r f, build_connect_args cfg =
        "port=" ++ strUpper cfg.connection_mode ++ m ++ r ++ f ∧
      (m ≠ "" → cfg.connect_mode ≠ "NORMAL" ∧
        m = " mode=" ++ strUpper cfg.connect_mode) ∧
      (cfg.reset_mode ≠ "" → r = " reset=" ++ cfg.reset_mode) ∧
      (cfg.frequency ≠ 0 → f = " freq=" ++ toString cfg.frequency) := by
  refine ⟨if cfg.connect_mode ≠ "" ∧ strUpper cfg.connect_mode ≠ "NORMAL" then
      " mode=" ++ strUpper cfg.connect_mode else "",
    if cfg.reset_mode ≠ "" then " reset=" ++ cfg.reset_mode else "",
    if cfg.frequency ≠ 0 then " freq=" ++ toString cfg.frequency else "",
    ?_, ?_, ?_, ?_⟩
  · simp only [build_connect_args]
    split_ifs <;>
      simp [String.append_assoc, String.append_empty, String.empty_append]
  · split_ifs with h
    · intro _
      refine ⟨fun hc => h.2 ?_, rfl⟩
      rw [hc]; rfl
    · intro hm; exact absurd rfl hm
  · split_ifs with h
    · intro _; rfl
    · intro hr; exact absurd hr h
  · split_ifs with h
    · intro _; rfl
    · intro hf; exact absurd hf h

/-- Witness for C7 at the concrete production configuration. -/
theorem build_connect_args_spec_witness :
    ∃ m r f, build_connect_args cfgA =
        "port=" ++ strUpper cfgA.connection_mode ++ m ++ r ++ f ∧
      (m ≠ "" → cfgA.connect_mode ≠ "NORMAL" ∧
        m = " mode=" ++ strUpper cfgA.connect_mode) ∧
      (cfgA.reset_mode ≠ "" → r = " reset=" ++ cfgA.reset_mode) ∧
      (cfgA.frequency ≠ 0 → f = " freq=" ++ toString cfgA.frequency) :=
  build_connect_args_spec cfgA

/-- C3: with stop-on-failure enabled, a failing connection check makes
`run` return immediately with `passed=false` and
`stopped_at="check_connection"`; the only tool invocation of the whole
run is the connection probe (so erase, upload, verify and reset are never
invoked) and no other step is started. -/
theorem run_stop_on_connection_failure (cfg : Config) (env : Env)
    (h1 : env.aborted = false) (h2 : cfg.stop_on_failure = true)
    (h3 : checkOk cfg env = false) :
    run cfg env = .ok (runCore cfg env) ∧
    (runCore cfg env).1 =
      { passed := false, measurements := [],
        stopped_at := some "check_connection" } ∧
    toolInvocations (runCore cfg env).2 = [probe_args cfg] ∧
    stepStartIds (runCore cfg env).2 = ["check_connection"] := by
  have hevs : toolInvocations (checkEvs cfg env) = [probe_args cfg] := by
    rw [checkEvs_eq]; exact toolInvocations_cmd ..
  have hids : stepStartIds (checkEvs cfg env) = [] := by
    rw [checkEvs_eq]; exact stepStartIds_cmd ..
  refine ⟨by simp [run, h1], ?_, ?_, ?_⟩ <;>
    simp [runCore, h2, h3, hevs, hids]

/-- Witness for C3: a probe whose output shows no device, under the
production configuration. -/
theorem run_stop_on_connection_failure_witness :
    run cfgA envFail = .ok (runCore cfgA envFail) ∧
    (runCore cfgA envFail).1 =
      { passed := false, measurements := [],
        stopped_at := some "check_connection" } ∧
    toolInvocations (runCore cfgA envFail).2 = [probe_args cfgA] ∧
    stepStartIds (runCore cfgA envFail).2 = ["check_connection"] :=
  run_stop_on_connection_failure cfgA envFail rfl rfl rfl

@[simp] theorem stepStartTotals_ite (c : Prop) [Decidable c] (a b : List Event) :
    stepStartTotals (if c then a else b) =
      if c then stepStartTotals a else stepStartTotals b := by
  split <;> rfl

@[simp] theorem stepStartIds_ite (c : Prop) [Decidable c] (a b : List Event) :
    stepStartIds (if c then a else b) =
      if c then stepStartIds a else stepStartIds b := by
  split <;> rfl

@[simp] theorem toolInvocations_ite (c : Prop) [Decidable c] (a b : List Event) :
    toolInvocations (if c then a else b) =
      if c then toolInvocations a else toolInvocations b := by
  split <;> rfl

theorem stage_verify_totals (cfg : Config) (env : Env) (p : Bool)
    (st : Option String) (c : Nat) (vr : Bool) (evs : List Event)
    (h : ∀ t ∈ stepStartTotals evs, t = total_steps cfg) :
    ∀ t ∈ stepStartTotals (stage_verify cfg env p st c vr evs).2,
      t = total_steps cfg := by
  intro t ht
  simp only [stage_verify] at ht
  simp [stepStartTotals_resetStepEvs, ite_self] at ht
  rcases ht with ht | ht
  · exact h t ht
  · exact ht.2

theorem stage_upload_totals (cfg : Config) (env : Env) (p : Bool)
    (st : Option String) (c : Nat) (evs : List Event)
    (h : ∀ t ∈ stepStartTotals evs, t = total_steps cfg) :
    ∀ t ∈ stepStartTotals (stage_upload cfg env p st c evs).2,
      t = total_steps cfg := by
  have hu : stepStartTotals (uploadEvs cfg env) = [] := by
    rw [uploadEvs_eq]; exact stepStartTotals_cmd ..
  simp only [stage_upload]
  split
  · intro t ht
    simp [hu, ite_self] at ht
    rcases ht with ht | ht
    · exact h t ht
    · exact ht.2
  · apply stage_verify_totals
    intro t ht
    simp [hu, ite_self] at ht
    rcases ht with ht | ht
    · exact h t ht
    · exact ht.2

theorem stage_erase_totals (cfg : Config) (env : Env) (p : Bool)
    (st : Option String) (evs : List Event)
    (h : ∀ t ∈ stepStartTotals evs, t = total_steps cfg) :
    ∀ t ∈ stepStartTotals (stage_erase cfg env p st evs).2,
      t = total_steps cfg := by
  have he : stepStartTotals (eraseEvs cfg env) = [] := by
    rw [eraseEvs_eq]; exact stepStartTotals_cmd ..
  simp only [stage_erase]
  split
  · intro t ht
    simp [he, ite_self] at ht
    rcases ht with ht | ht
    · exact h t ht
    · exact ht.2
  · apply stage_upload_totals
    intro t ht
    simp [he, ite_self] at ht
    rcases ht with ht | ht
    · exact h t ht
    · exact ht.2

theorem runCore_totals (cfg : Config) (env : Env) :
    ∀ t ∈ stepStartTotals (runCore cfg env).2, t = total_steps cfg := by
  have hc : stepStartTotals (checkEvs cfg env) = [] := by
    rw [checkEvs_eq]; exact stepStartTotals_cmd ..
  simp only [runCore]
  split
  · intro t ht
    simp [hc, ite_self] at ht
    exact ht
  · apply stage_erase_totals
    intro t ht
    simp [hc, ite_self] at ht
    exact ht

/-- C5: every step-start event of a completed run announces the same
total step count, equal to 2 plus 1 when erase is enabled plus 1 when
verify is enabled, and this count is independent of whether reset is
enabled. -/
theorem run_total_steps (cfg : Config) (env : Env) (out : RunOutput)
    (evs : List Event) (h : run cfg env = .ok (out, evs)) :
    (∀ t ∈ stepStartTotals evs, t = total_steps cfg) ∧
    total_steps cfg = 2 + (if cfg.erase_before_upload then 1 else 0)
      + (if cfg.verify_after_upload then 1 else 0) ∧
    (∀ b, total_steps { cfg with reset_after_upload := b } = total_steps cfg) := by
  refine ⟨?_, rfl, fun b => rfl⟩
  unfold run at h
  split at h
  · exact absurd h (by simp)
  · have h' := Except.ok.inj h
    have hevs : evs = (runCore cfg env).2 := by rw [h']
    subst hevs
    exact runCore_totals cfg env

/-- Witness for C5 at the concrete all-success run. -/
theorem run_total_steps_witness :
    (∀ t ∈ stepStartTotals (runCore cfgA envA).2, t = total_steps cfgA) ∧
    total_steps cfgA = 2 + (if cfgA.erase_before_upload then 1 else 0)
      + (if cfgA.verify_after_upload then 1 else 0) ∧
    (∀ b, total_steps { cfgA with reset_after_upload := b } = total_steps cfgA) :=
  run_total_steps cfgA envA ((runCore cfgA envA).1) ((runCore cfgA envA).2) rfl

/-! ### Reset-step frame lemmas -/

@[simp] theorem checkOk_resetOutcome (cfg : Config) (env : Env) (o : ProcOutcome) :
    checkOk cfg { env with resetOutcome := o } = checkOk cfg env := rfl

@[simp] theorem eraseOk_resetOutcome (cfg : Config) (env : Env) (o : ProcOutcome) :
    eraseOk cfg { env with resetOutcome := o } = eraseOk cfg env := rfl

@[simp] theorem uploadOk_resetOutcome (cfg : Config) (env : Env) (o : ProcOutcome) :
    uploadOk cfg { env with resetOutcome := o } = uploadOk cfg env := rfl

@[simp] theorem uploadVerify_resetOutcome (cfg : Config) (env : Env)
    (o : ProcOutcome) :
    uploadVerify cfg { env with resetOutcome := o } = uploadVerify cfg env := rfl

theorem stage_verify_fst_any (cfg : Config) (env env' : Env) (p : Bool)
    (st : Option String) (c : Nat) (vr : Bool) (evs evs' : List Event) :
    (stage_verify cfg env p st c vr evs).1 =
      (stage_verify cfg env' p st c vr evs').1 := rfl

theorem stage_upload_fst_reset (cfg : Config) (env : Env) (o1 o2 : ProcOutcome)
    (p : Bool) (st : Option String) (c : Nat) (evs evs' : List Event) :
    (stage_upload cfg { env with resetOutcome := o1 } p st c evs).1 =
      (stage_upload cfg { env with resetOutcome := o2 } p st c evs').1 := by
  simp only [stage_upload, uploadOk_resetOutcome, uploadVerify_resetOutcome]
  split_ifs <;> rfl

theorem stage_erase_fst_reset (cfg : Config) (env : Env) (o1 o2 : ProcOutcome)
    (p : Bool) (st : Option String) (evs evs' : List Event) :
    (stage_erase cfg { env with resetOutcome := o1 } p st evs).1 =
      (stage_erase cfg { env with resetOutcome := o2 } p st evs').1 := by
  simp only [stage_erase, eraseOk_resetOutcome]
  split_ifs <;> first | rfl | exact stage_upload_fst_reset ..

theorem probe_ne_reset (cfg : Config) : probe_args cfg ≠ reset_args cfg := by
  simp [probe_args, reset_args]

theorem erase_ne_reset (cfg : Config) : erase_args cfg ≠ reset_args cfg := by
  simp [erase_args, reset_args]

theorem upload_ne_reset (cfg : Config) (v : Bool) :
    upload_args cfg v ≠ reset_args cfg := by
  cases v <;> intro h <;>
    (have hl := congrArg List.length h; simp [upload_args, reset_args] at hl)

theorem stage_verify_no_reset_inv (cfg : Config) (env : Env) (p : Bool)
    (st : Option String) (c : Nat) (vr : Bool) (evs : List Event)
    (hp : (stage_verify cfg env p st c vr evs).1.passed = false)
    (h : reset_args cfg ∉ toolInvocations evs) :
    reset_args cfg ∉ toolInvocations (stage_verify cfg env p st c vr evs).2 := by
  simp only [stage_verify] at hp ⊢
  intro hmem
  rw [hp] at hmem
  simp [ite_self] at hmem
  exact h hmem

theorem stage_upload_no_reset_inv (cfg : Config) (env : Env) (p : Bool)
    (st : Option String) (c : Nat) (evs : List Event)
    (hp : (stage_upload cfg env p st c evs).1.passed = false)
    (h : reset_args cfg ∉ toolInvocations evs) :
    reset_args cfg ∉ toolInvocations (stage_upload cfg env p st c evs).2 := by
  have hu : toolInvocations (uploadEvs cfg env) =
      [upload_args cfg cfg.verify_after_upload] := by
    rw [uploadEvs_eq]; exact toolInvocations_cmd ..
  by_cases hc : ((p || !cfg.stop_on_failure) && !uploadOk cfg env
      && cfg.stop_on_failure) = true
  · simp only [stage_upload, if_pos hc]
    intro hmem
    simp [hu, ite_self] at hmem
    rcases hmem with hmem | hmem
    · exact h hmem
    · exact upload_ne_reset cfg _ hmem.2.symm
  · simp only [stage_upload, if_neg hc] at hp ⊢
    apply stage_verify_no_reset_inv _ _ _ _ _ _ _ hp
    intro hmem
    simp [hu, ite_self] at hmem
    rcases hmem with hmem | hmem
    · exact h hmem
    · exact upload_ne_reset cfg _ hmem.2.symm

theorem stage_erase_no_reset_inv (cfg : Config) (env : Env) (p : Bool)
    (st : Option String) (evs : List Event)
    (hp : (stage_erase cfg env p st evs).1.passed = false)
    (h : reset_args cfg ∉ toolInvocations evs) :
    reset_args cfg ∉ toolInvocations (stage_erase cfg env p st evs).2 := by
  have he : toolInvocations (eraseEvs cfg env) = [erase_args cfg] := by
    rw [eraseEvs_eq]; exact toolInvocations_cmd ..
  by_cases hc : (cfg.erase_before_upload && (p || !cfg.stop_on_failure)
      && !eraseOk cfg env && cfg.stop_on_failure) = true
  · simp only [stage_erase, if_pos hc]
    intro hmem
    simp [he, ite_self] at hmem
    rcases hmem with hmem | hmem
    · exact h hmem
    · exact erase_ne_reset cfg hmem.2.symm
  · simp only [stage_erase, if_neg hc] at hp ⊢
    apply stage_upload_no_reset_inv _ _ _ _ _ _ hp
    intro hmem
    simp [he, ite_self] at hmem
    rcases hmem with hmem | hmem
    · exact h hmem
    · exact erase_ne_reset cfg hmem.2.symm

theorem runCore_no_reset_inv (cfg : Config) (env : Env)
    (hp : (runCore cfg env).1.passed = false) :
    reset_args cfg ∉ toolInvocations (runCore cfg env).2 := by
  have hck : toolInvocations (checkEvs cfg env) = [probe_args cfg] := by
    rw [checkEvs_eq]; exact toolInvocations_cmd ..
  by_cases hc : (!checkOk cfg env && cfg.stop_on_failure) = true
  · simp only [runCore, if_pos hc]
    intro hmem
    simp [hck, ite_self] at hmem
    exact probe_ne_reset cfg hmem.symm
  · simp only [runCore, if_neg hc] at hp ⊢
    apply stage_erase_no_reset_inv _ _ _ _ _ hp
    intro hmem
    simp [hck, ite_self] at hmem
    exact probe_ne_reset cfg hmem.symm

theorem runCore_fst_reset (cfg : Config) (env : Env) (o1 o2 : ProcOutcome) :
    (runCore cfg { env with resetOutcome := o1 }).1 =
      (runCore cfg { env with resetOutcome := o2 }).1 := by
  simp only [runCore, checkOk_resetOutcome]
  split_ifs <;> first | rfl | exact stage_erase_fst_reset ..

/-- C9: the reset step never influences the returned result — for any
two oracle outcomes of the reset invocation the `RunResult` is
identical (so a true `passed` can never be turned false by the reset
step) — and whenever the aggregate `passed` is false the reset
invocation is never issued. -/
theorem reset_step_frame (cfg : Config) (env : Env) (o1 o2 : ProcOutcome) :
    (runCore cfg { env with resetOutcome := o1 }).1 =
      (runCore cfg { env with resetOutcome := o2 }).1 ∧
    (env.aborted = false → run cfg env = .ok (runCore cfg env)) ∧
    ((runCore cfg env).1.passed = false →
      reset_args cfg ∉ toolInvocations (runCore cfg env).2) :=
  ⟨runCore_fst_reset cfg env o1 o2, fun h => by simp [run, h],
    runCore_no_reset_inv cfg env⟩

/-- Witness for C9: a run that failed at the connection check issues no
reset invocation, and the result is insensitive to the reset oracle. -/
theorem reset_step_frame_witness :
    (runCore cfgA { envFail with resetOutcome := .timeout }).1 =
      (runCore cfgA { envFail with resetOutcome := .launchFailure "x" }).1 ∧
    run cfgA envFail = .ok (runCore cfgA envFail) ∧
    reset_args cfgA ∉ toolInvocations (runCore cfgA envFail).2 := by
  obtain ⟨h1, h2, h3⟩ :=
    reset_step_frame cfgA envFail .timeout (.launchFailure "x")
  exact ⟨h1, h2 rfl, h3 rfl⟩

/-- C2: with stop-on-failure disabled, every enabled step is attempted
(the attempted step ids are exactly the enabled steps, in order) no
matter which steps fail; the final `passed` is true exactly when no
enabled step failed (once false it never reverts); and `stopped_at` is
the id of the first failing enabled step. -/
theorem run_continue_mode (cfg : Config) (env : Env)
    (h1 : env.aborted = false) (h2 : cfg.stop_on_failure = false) :
    run cfg env = .ok (runCore cfg env) ∧
    stepStartIds (runCore cfg env).2 = enabled_steps cfg ∧
    (runCore cfg env).1.passed = (first_failing_step cfg env).isNone ∧
    (runCore cfg env).1.stopped_at = first_failing_step cfg env := by
  have hck : stepStartIds (checkEvs cfg env) = [] := by
    rw [checkEvs_eq]; exact stepStartIds_cmd ..
  have her : stepStartIds (eraseEvs cfg env) = [] := by
    rw [eraseEvs_eq]; exact stepStartIds_cmd ..
  have hup : stepStartIds (uploadEvs cfg env) = [] := by
    rw [uploadEvs_eq]; exact stepStartIds_cmd ..
  refine ⟨by simp [run, h1], ?_, ?_, ?_⟩ <;>
  · cases hE : cfg.erase_before_upload <;> cases hV : cfg.verify_after_upload <;>
      cases hb1 : checkOk cfg env <;> cases hb2 : eraseOk cfg env <;>
      cases hb3 : uploadOk cfg env <;> cases hb4 : uploadVerify cfg env <;>
      simp [runCore, stage_erase, stage_upload, stage_verify, enabled_steps,
        first_failing_step, total_steps, h2, hE, hV, hb1, hb2, hb3, hb4,
        hck, her, hup, stepStartIds_resetStepEvs, ite_self]

/-- Witness for C2: continue-mode run with erase enabled whose connection
check fails. -/
theorem run_continue_mode_witness :
    run cfgB envFail = .ok (runCore cfgB envFail) ∧
    stepStartIds (runCore cfgB envFail).2 = enabled_steps cfgB ∧
    (runCore cfgB envFail).1.passed = (first_failing_step cfgB envFail).isNone ∧
    (runCore cfgB envFail).1.stopped_at = first_failing_step cfgB envFail :=
  run_continue_mode cfgB envFail rfl rfl

/-- C1 counterexample: in the exact success scenario of the claim (erase
disabled, verify enabled, reset enabled, every issued invocation exits
with status 0 and output containing "Download verified successfully", the
probe output showing the device), the run passes with no
`data.stopped_at` — but the measurements mapping is empty: in particular
it contains no `upload_time`, `upload_speed_bps`, `firmware_size` or
`verification_passed` entry, contrary to the claim. -/
theorem run_success_measurements_counterexample :
    run cfgA envA = .ok (runCore cfgA envA) ∧
    (runCore cfgA envA).1.passed = true ∧
    (runCore cfgA envA).1.stopped_at = none ∧
    (runCore cfgA envA).1.measurements = [] ∧
    ((runCore cfgA envA).1.measurements.lookup "upload_time" = none ∧
     (runCore cfgA envA).1.measurements.lookup "verification_passed" = none) :=
  ⟨rfl, rfl, rfl, rfl, rfl, rfl⟩

/-- C1 (amended): in the success scenario — erase disabled, verify
enabled, reset enabled, the probe detecting the device, the write
invocation exiting 0 with output containing "Download verified
successfully" — the run returns `passed=true`, an empty measurements
mapping, and no `data.stopped_at` entry. -/
theorem run_success_scenario (cfg : Config) (env : Env)
    (ha : env.aborted = false)
    (he : cfg.erase_before_upload = false)
    (hv : cfg.verify_after_upload = true)
    (hr : cfg.reset_after_upload = true)
    (hc : checkOk cfg env = true)
    (hu : ∃ o e, env.uploadOutcome = .exited 0 o e ∧
      strContains (o ++ e) "Download verified successfully" = true) :
    run cfg env = .ok (runCore cfg env) ∧
    (runCore cfg env).1 =
      { passed := true, measurements := [], stopped_at := none } := by
  obtain ⟨o, e, hout, hstr⟩ := hu
  have hb3 : uploadOk cfg env = true := by
    simp [uploadOk, upload_firmware, run_programmer_cmd, hout]
  have hb4 : uploadVerify cfg env = true := by
    simp [uploadVerify, upload_firmware, run_programmer_cmd, hout, hv,
      verify_outcome, hstr]
  refine ⟨by simp [run, ha], ?_⟩
  simp [runCore, stage_erase, stage_upload, stage_verify, he, hv, hc, hb3, hb4]

/-- Witness for the amended C1 at the concrete all-success run. -/
theorem run_success_scenario_witness :
    run cfgA envA = .ok (runCore cfgA envA) ∧
    (runCore cfgA envA).1 =
      { passed := true, measurements := [], stopped_at := none } :=
  run_success_scenario cfgA envA rfl rfl rfl rfl rfl
    ⟨"Download verified successfully\n", "", rfl, by decide⟩

/-! ### C4: which line the probe parser's field values come from -/

/-- A line updates the field for `key` exactly when it contains `key` and
has at least two colon-separated pieces (that is, contains a colon). -/
def linePred (key : String) (l : List Char) : Bool :=
  containsList key.data l &&
    match splitOnChar ':' l with
    | _ :: _ :: _ => true
    | _ => false

/-- The value an updating line yields: the piece between the first and
second colon (to the end of the line when there is only one colon),
trimmed. -/
def linePart (l : List Char) : List Char :=
  match splitOnChar ':' l with
  | _ :: p :: _ => trimChars p
  | _ => []

/-- Spec-side description of the extraction (amended claim): the value of
the LAST updating line, or "unknown" when no line updates the field. -/
def extractLastField (key : String) (lines : List (List Char)) : List Char :=
  match lines.reverse.find? (linePred key) with
  | some l => linePart l
  | none => "unknown".data

theorem updField_eq (key : String) (acc l : List Char) :
    updField key acc l = if linePred key l then linePart l else acc := by
  cases hc : containsList key.data l
  · simp [updField, linePred, hc]
  · rcases hs : splitOnChar ':' l with _ | ⟨a, _ | ⟨b, tl⟩⟩ <;>
      simp [updField, linePred, linePart, hc, hs]

theorem foldl_updField (key : String) (lines : List (List Char))
    (acc : List Char) :
    lines.foldl (updField key) acc =
      match lines.reverse.find? (linePred key) with
      | some l => linePart l
      | none => acc := by
  induction lines generalizing acc with
  | nil => rfl
  | cons l ls ih =>
    rw [List.foldl_cons, ih]
    rw [List.reverse_cons, List.find?_append]
    cases h : ls.reverse.find? (linePred key) with
    | some x => rfl
    | none =>
      rw [Option.none_or, updField_eq]
      cases hp : linePred key l <;> simp [List.find?, hp]

theorem foldl_scan_info (lines : List (List Char)) (a b : List Char) :
    lines.foldl scan_info_line (a, b) =
      (lines.foldl (updField "ST-LINK SN") a,
       lines.foldl (updField "Device name") b) := by
  induction lines generalizing a b with
  | nil => rfl
  | cons l ls ih =>
    rw [List.foldl_cons, List.foldl_cons, List.foldl_cons]
    exact ih ..

/-- C4 (amended): presence is true iff the output contains "Device ID" or
"Device name"; with neither trigger the result is presence false with an
empty info mapping; on presence, the serial is extracted from the LAST
line containing "ST-LINK SN" and a colon — taking the piece between the
first and second colon (to the end of the line when there is only one
colon), trimmed — and the device name likewise from the last line
containing "Device name" with a colon; a field with no such line is the
literal "unknown". -/
theorem parse_stlink_output_spec (output : String) :
    (parse_stlink_output output).1 =
      (strContains output "Device ID" || strContains output "Device name") ∧
    ((strContains output "Device ID" || strContains output "Device name")
        = false → parse_stlink_output output = (false, [])) ∧
    ((strContains output "Device ID" || strContains output "Device name")
        = true → parse_stlink_output output = (true,
      [("serial", String.mk (extractLastField "ST-LINK SN"
          (splitOnChar '\n' output.data))),
       ("device_name", String.mk (extractLastField "Device name"
          (splitOnChar '\n' output.data)))])) := by
  refine ⟨?_, ?_, ?_⟩
  · unfold parse_stlink_output
    split_ifs with h <;> simp [h]
  · intro h
    simp [parse_stlink_output, h]
  · intro h
    simp only [parse_stlink_output, h, if_true]
    rw [foldl_scan_info, foldl_updField, foldl_updField]
    unfold extractLastField
    rfl

/-- Witness for the amended C4 at the spec's own example output. -/
theorem parse_stlink_output_spec_witness :
    ((strContains "Device ID: 0x450\nST-LINK SN: 12345" "Device ID"
      || strContains "Device ID: 0x450\nST-LINK SN: 12345" "Device name")
        = true) ∧
    parse_stlink_output "Device ID: 0x450\nST-LINK SN: 12345" = (true,
      [("serial", String.mk (extractLastField "ST-LINK SN"
          (splitOnChar '\n' ("Device ID: 0x450\nST-LINK SN: 12345").data))),
       ("device_name", String.mk (extractLastField "Device name"
          (splitOnChar '\n' ("Device ID: 0x450\nST-LINK SN: 12345").data)))]) :=
  ⟨by decide,
    (parse_stlink_output_spec "Device ID: 0x450\nST-LINK SN: 12345").2.2
      (by decide)⟩

/-- C4 counterexample: with two "ST-LINK SN" lines the parser reports the
value of the LAST one (and the piece between the first and second colon):
the claimed first-line-after-first-colon rule would give "A:B", the code
gives "C". -/
theorem parse_stlink_output_counterexample :
    parse_stlink_output "Device ID\nST-LINK SN: A:B\nST-LINK SN: C:D" =
      (true, [("serial", "C"), ("device_name", "unknown")]) ∧
    ("C" : String) ≠ "A:B" := by
  exact ⟨by decide, by decide⟩
